import Mathlib

/-!
Verification of the CMS glue code of the Quansight website repository:
the sticky-notes blok prop adapter (`getStickyNotesProps`), the dynamic
page route of the labs app (`Container`, `getStaticPaths`,
`getStaticProps`), and the `TRawBlok` discriminated union.

TypeScript records become Lean structures; optional / possibly-undefined
values become `Option`; JavaScript runtime errors (reading a property of
`undefined`) become `Except JsError`; the sequential `await`ed CMS calls
become a hand-rolled call-logging monad `CmsM`, so that both the value
and the order of the issued CMS requests are visible to theorems.

Collaborators that live in the repository but outside the analysed
sources (the shared `getUrl` helper, the `getPaths` slug resolver, the
`isPageType` guard, the `BlokProvider` renderer and the `Api` client)
are modelled from the specification; each such definition carries a doc
comment saying so.
-/

/-- A raw CMS link field, as stored on a sticky-note item. -/
structure TLink where
  linktype : String
  cached_url : String
deriving Repr, DecidableEq

/-- `true` when the string already carries an `http://` or `https://` scheme. -/
def isAbsoluteUrl (s : String) : Bool :=
  List.isPrefixOf "https://".data s.data || List.isPrefixOf "http://".data s.data

/-- Base URL of the site, used to resolve relative CMS links. -/
def siteBaseUrl : String := "https://labs.quansight.org"

/-- Modelled from the spec: `getUrl` lives in `@quansight/shared/ui-components`,
outside the analysed sources. Per the spec, blok adapters resolve "link fields
... to absolute URLs"; the model resolves a relative `cached_url` against the
site base URL and passes an already absolute one through. -/
def getUrl (link : TLink) : String :=
  if isAbsoluteUrl link.cached_url then link.cached_url
  else siteBaseUrl ++ "/" ++ link.cached_url

/-- One raw sticky-note item inside a `TStickyNotesRawData` blok. -/
structure TStickyNotesRawItem where
  title : String
  description : String
  descriptionSize : String
  buttonText : String
  variant : String
  link : TLink
deriving Repr, DecidableEq

/-- The raw sticky-notes blok record fetched from the CMS; `component` is the
content-type discriminator. -/
structure TStickyNotesRawData where
  component : String
  variant : String
  items : List TStickyNotesRawItem
deriving Repr, DecidableEq

/-- One typed UI prop item produced by the sticky-notes adapter. -/
structure TStickyNotesPropsItem where
  title : String
  description : String
  descriptionSize : String
  buttonText : String
  variant : String
  buttonLink : String
deriving Repr, DecidableEq

/-- The typed UI prop object for the sticky-notes component. -/
structure TStickyNotesProps where
  variant : String
  items : List TStickyNotesPropsItem
deriving Repr, DecidableEq

/-- The sticky-notes blok prop adapter, translated from
`getStickyNotesProps.ts`: copies `variant` and maps each raw item to a prop
item, resolving the raw `link` through `getUrl` into `buttonLink`. -/
def getStickyNotesProps (data : TStickyNotesRawData) : TStickyNotesProps :=
  { variant := data.variant
    items := data.items.map (fun item =>
      { title := item.title
        description := item.description
        descriptionSize := item.descriptionSize
        buttonText := item.buttonText
        variant := item.variant
        buttonLink := getUrl item.link }) }

lemma isAbsoluteUrl_getUrl (link : TLink) : isAbsoluteUrl (getUrl link) = true := by
  unfold getUrl
  split
  · assumption
  · unfold isAbsoluteUrl
    have hdata : (siteBaseUrl ++ "/" ++ link.cached_url).data
        = siteBaseUrl.data ++ ("/" ++ link.cached_url).data := by
      simp [String.data_append]
    rw [hdata, Bool.or_eq_true, List.isPrefixOf_iff_prefix]
    left
    exact List.IsPrefix.trans (by decide) (List.prefix_append _ _)

/-- C1: for every raw sticky-notes blok record, `getStickyNotesProps` produces
a prop object with all expected fields present — `variant` at the top level,
and for each item `title`, `description`, `descriptionSize`, `buttonText`,
`variant` and `buttonLink` — where each item's `buttonLink` is the item's
`link` field resolved through `getUrl` to an absolute URL. -/
theorem getStickyNotesProps_fields (data : TStickyNotesRawData) :
    (getStickyNotesProps data).variant = data.variant ∧
    (getStickyNotesProps data).items = data.items.map (fun item =>
      { title := item.title
        description := item.description
        descriptionSize := item.descriptionSize
        buttonText := item.buttonText
        variant := item.variant
        buttonLink := getUrl item.link }) ∧
    ∀ propItem ∈ (getStickyNotesProps data).items,
      isAbsoluteUrl propItem.buttonLink = true := by
  refine ⟨rfl, rfl, ?_⟩
  intro propItem hmem
  simp only [getStickyNotesProps, List.mem_map] at hmem
  obtain ⟨item, -, rfl⟩ := hmem
  exact isAbsoluteUrl_getUrl item.link

/-- C2: the items array produced by `getStickyNotesProps` has the same length
as the input items array and preserves insertion order: the i-th output item
is derived from the i-th input item. -/
theorem getStickyNotesProps_items_order (data : TStickyNotesRawData) :
    (getStickyNotesProps data).items.length = data.items.length ∧
    ∀ i : Nat, (getStickyNotesProps data).items[i]? = (data.items[i]?).map
      (fun item =>
        { title := item.title
          description := item.description
          descriptionSize := item.descriptionSize
          buttonText := item.buttonText
          variant := item.variant
          buttonLink := getUrl item.link }) := by
  constructor
  · simp [getStickyNotesProps]
  · intro i
    simp [getStickyNotesProps, List.getElem?_map]

/-- A link entry returned by the CMS `getLinks` query. -/
structure TLinkEntry where
  id : Nat
  slug : String
  isFolder : Bool
  name : String
deriving Repr, DecidableEq

/-- The `Links` field of the `getLinks` response data. -/
structure LinksField where
  items : List TLinkEntry
deriving Repr, DecidableEq

/-- The `data` payload of a `getLinks` response. -/
structure LinksData where
  Links : LinksField
deriving Repr, DecidableEq

/-- A `getLinks` response; `data` is optional, matching the optional chain
`data?.Links.items` in the source. -/
structure LinksResponse where
  data : Option LinksData
deriving Repr, DecidableEq

/-- The route parameters of the dynamic `[slug]` page (`ISlugParams`). -/
structure SlugParams where
  slug : String
deriving Repr, DecidableEq

/-- One path entry produced for the static-site generator. -/
structure PathEntry where
  params : SlugParams
deriving Repr, DecidableEq

/-- Modelled from the spec: `getPaths` lives in `services/getPaths`, outside
the analysed sources. Per the spec, it "derives the list of page slugs from
link data — a direct mapping with a filter, O(n) over link entries": folder
entries are filtered out and each remaining entry is mapped to a slug param.
An absent (`undefined`) argument yields an empty path list. -/
def getPaths (items : Option (List TLinkEntry)) : List PathEntry :=
  ((items.getD []).filter (fun entry => !entry.isFolder)).map
    (fun entry => { params := { slug := entry.slug } })

/-- Nested content of a CMS page item; `component` is the content-type
discriminator read by `isPageType`. -/
structure TPageContent where
  component : String
  title : String
  description : String
deriving Repr, DecidableEq

/-- A CMS page item; `content` may be absent at runtime, which is what the
optional chain `data?.content?.component` in `Container` anticipates. -/
structure PageItem where
  content : Option TPageContent
deriving Repr, DecidableEq

/-- The `data` payload of a `getPageItem` response; `PageItem` is `null` when
no page matches the slug. -/
structure PageData where
  PageItem : Option PageItem
deriving Repr, DecidableEq

/-- A `getPageItem` response. -/
structure PageResponse where
  data : PageData
deriving Repr, DecidableEq

/-- A CMS footer item; its fields are passed opaquely to the layout. -/
structure FooterItem where
  columns : List String
deriving Repr, DecidableEq

/-- The `data` payload of a `getFooterItem` response. -/
structure FooterData where
  FooterItem : Option FooterItem
deriving Repr, DecidableEq

/-- A `getFooterItem` response. -/
structure FooterResponse where
  data : FooterData
deriving Repr, DecidableEq

/-- A CMS fetch failure (network or API error). -/
structure ApiError where
  message : String
deriving Repr, DecidableEq

/-- Modelled from the spec: the content API client
(`@quansight/shared/storyblok-sdk`) is outside the analysed sources. Per the
spec it "wraps HTTP calls to the CMS (`getLinks`, `getPageItem`,
`getFooterItem`) — pure request/response, no retry/backoff logic"; each call
is modelled as a one-shot result, either a response or an error. -/
structure Api where
  getLinks : Except ApiError LinksResponse
  getPageItem : String → Except ApiError PageResponse
  getFooterItem : Except ApiError FooterResponse

/-- One CMS request, recorded in the order it is issued. -/
inductive ApiCall where
  | getLinks : ApiCall
  | getPageItem (slug : String) : ApiCall
  | getFooterItem : ApiCall
deriving Repr, DecidableEq

/-- The sequential-fetch monad: a computation appends the CMS calls it issues
to a trace and either returns a value or propagates the first `ApiError`
unchanged (an `await` whose promise rejects). -/
def CmsM (α : Type) := List ApiCall → Except ApiError α × List ApiCall

def CmsM.pure {α : Type} (a : α) : CmsM α := fun trace => (Except.ok a, trace)

def CmsM.bind {α β : Type} (x : CmsM α) (f : α → CmsM β) : CmsM β := fun trace =>
  match x trace with
  | (Except.ok a, trace2) => f a trace2
  | (Except.error e, trace2) => (Except.error e, trace2)

instance : Monad CmsM where
  pure := CmsM.pure
  bind := CmsM.bind

/-- `await Api.getLinks()`: records the call and yields its result. -/
def Api.fetchLinks (api : Api) : CmsM LinksResponse :=
  fun trace => (api.getLinks, trace ++ [ApiCall.getLinks])

/-- `await Api.getPageItem({ slug })`: records the call and yields its result. -/
def Api.fetchPageItem (api : Api) (slug : String) : CmsM PageResponse :=
  fun trace => (api.getPageItem slug, trace ++ [ApiCall.getPageItem slug])

/-- `await Api.getFooterItem()`: records the call and yields its result. -/
def Api.fetchFooterItem (api : Api) : CmsM FooterResponse :=
  fun trace => (api.getFooterItem, trace ++ [ApiCall.getFooterItem])

/-- Result shape of `getStaticPaths`. -/
structure StaticPathsResult where
  paths : List PathEntry
  fallback : Bool
deriving Repr, DecidableEq

/-- `getStaticPaths` from `apps/labs/pages/[slug]/index.tsx`: awaits
`Api.getLinks()`, destructures `data`, and returns the paths produced by
`getPaths(data?.Links.items)` with `fallback: false`. -/
def getStaticPaths (api : Api) : CmsM StaticPathsResult := do
  let resp ← api.fetchLinks
  pure { paths := getPaths (resp.data.map (fun d => d.Links.items))
         fallback := false }

/-- The props consumed by `Container` (`TContainerProps`). -/
structure TContainerProps where
  data : Option PageItem
  footer : Option FooterItem
  preview : Bool
deriving Repr, DecidableEq

/-- Result shape of `getStaticProps`. -/
structure StaticPropsResult where
  props : TContainerProps
deriving Repr, DecidableEq

/-- The context handed to `getStaticProps`; `preview` is absent unless the
framework runs in preview mode (the source destructures it with
`preview = false`). -/
structure GetStaticPropsContext where
  params : SlugParams
  preview : Option Bool
deriving Repr, DecidableEq

/-- `getStaticProps` from `apps/labs/pages/[slug]/index.tsx`: awaits
`Api.getPageItem({ slug })`, then awaits `Api.getFooterItem()`, and returns
`{ props: { data: data.PageItem, footer: footer.FooterItem, preview } }`,
with `preview` defaulting to `false` when absent. -/
def getStaticProps (api : Api) (ctx : GetStaticPropsContext) :
    CmsM StaticPropsResult := do
  let pageResp ← api.fetchPageItem ctx.params.slug
  let footerResp ← api.fetchFooterItem
  pure { props := { data := pageResp.data.PageItem
                    footer := footerResp.data.FooterItem
                    preview := ctx.preview.getD false } }

/-- Raw data of a hero blok (type declared outside the analysed sources;
only its discriminator is needed here). -/
structure THeroRawData where
  component : String
deriving Repr, DecidableEq

/-- Raw data of a board blok (type declared outside the analysed sources). -/
structure TBoardRawData where
  component : String
deriving Repr, DecidableEq

/-- Raw data of a teaser blok (type declared outside the analysed sources). -/
structure TTeaserRawData where
  component : String
deriving Repr, DecidableEq

/-- Raw data of a feature-article blok (type declared outside the analysed
sources). -/
structure TFeatureArticleRawData where
  component : String
deriving Repr, DecidableEq

/-- The discriminated union of raw bloks, translated from `rawBlok.ts`:
`THeroRawData | TBoardRawData | TTeaserRawData | TStickyNotesRawData |
TFeatureArticleRawData`, discriminated by the content-type tag. -/
inductive TRawBlok where
  | hero (d : THeroRawData) : TRawBlok
  | board (d : TBoardRawData) : TRawBlok
  | teaser (d : TTeaserRawData) : TRawBlok
  | stickyNotes (d : TStickyNotesRawData) : TRawBlok
  | featureArticle (d : TFeatureArticleRawData) : TRawBlok
deriving Repr, DecidableEq

/-- The UI component a blok renders to, one per content type. -/
inductive BlokComponent where
  | hero (d : THeroRawData) : BlokComponent
  | board (d : TBoardRawData) : BlokComponent
  | teaser (d : TTeaserRawData) : BlokComponent
  | stickyNotes (props : TStickyNotesProps) : BlokComponent
  | featureArticle (d : TFeatureArticleRawData) : BlokComponent
deriving Repr, DecidableEq

/-- Modelled from the spec: `BlokProvider` lives in
`components/BlokProvider`, outside the analysed sources. Per the spec, it is
"a polymorphic blok renderer selected by a discriminated union over
content-type tags"; each variant of `TRawBlok` selects the matching UI
component, running the variant's prop adapter (here the analysed sticky-notes
adapter). -/
def BlokProvider (blok : TRawBlok) : BlokComponent :=
  match blok with
  | TRawBlok.hero d => BlokComponent.hero d
  | TRawBlok.board d => BlokComponent.board d
  | TRawBlok.teaser d => BlokComponent.teaser d
  | TRawBlok.stickyNotes d => BlokComponent.stickyNotes (getStickyNotesProps d)
  | TRawBlok.featureArticle d => BlokComponent.featureArticle d

/-- Modelled from the spec: `isPageType` lives in
`services/contentTypes`, outside the analysed sources. It guards the blok
renderer on the content-type discriminator being the page type. -/
def isPageType (component : String) : Bool :=
  component == "page"

/-- The `variant` prop of the SEO component (`DomainVariant.Labs` here). -/
inductive DomainVariant where
  | Labs : DomainVariant
  | Consulting : DomainVariant
deriving Repr, DecidableEq

/-- The element tree `Container` renders, shallowly: the layout wraps the SEO
metadata and (when the guard passes) the `Page`, whose render prop hands each
raw blok to a renderer. -/
inductive RNode where
  | layout (footer : Option FooterItem) (children : List RNode) : RNode
  | seo (title description : String) (variant : DomainVariant) : RNode
  | page (data : PageItem) (preview : Bool) (renderBlok : TRawBlok → RNode) : RNode
  | blok (c : BlokComponent) : RNode

/-- A JavaScript runtime error raised while rendering. -/
inductive JsError where
  | typeError (msg : String) : JsError
deriving Repr, DecidableEq

/-- The page container from `apps/labs/pages/[slug]/index.tsx`. It reads
`data.content.title` and `data.content.description` without optional
chaining, so an absent `data` or `data.content` raises a TypeError before the
`isPageType(data?.content?.component)` guard is evaluated; otherwise it
renders the layout with the footer, the SEO metadata from `data.content`, and
— when the guard passes — the `Page` whose render prop wraps each blok in
`BlokProvider`. -/
def Container (p : TContainerProps) : Except JsError RNode :=
  match p.data with
  | none => Except.error (JsError.typeError "cannot read content of undefined")
  | some d =>
    match d.content with
    | none => Except.error (JsError.typeError "cannot read title of undefined")
    | some c =>
      Except.ok (RNode.layout p.footer
        ([RNode.seo c.title c.description DomainVariant.Labs] ++
          (if isPageType c.component then
            [RNode.page d p.preview (fun blok => RNode.blok (BlokProvider blok))]
          else [])))

lemma CmsM.run_bind {α β : Type} (x : CmsM α) (f : α → CmsM β) (t : List ApiCall) :
    (x >>= f) t =
      match x t with
      | (Except.ok a, t2) => f a t2
      | (Except.error e, t2) => (Except.error e, t2) := rfl

lemma CmsM.run_pure {α : Type} (a : α) (t : List ApiCall) :
    (Pure.pure a : CmsM α) t = (Except.ok a, t) := rfl

/-- C3: every failing CMS fetch is propagated unchanged: when `getLinks`
fails, `getStaticPaths` returns exactly that error; when `getPageItem`
fails, `getStaticProps` returns exactly that error; and when `getPageItem`
succeeds but `getFooterItem` fails, `getStaticProps` returns exactly the
footer error — no retry, no fallback value, no catch handler. -/
theorem staticFetch_error_propagation (api : Api) (ctx : GetStaticPropsContext)
    (e : ApiError) :
    (api.getLinks = Except.error e →
      (getStaticPaths api []).1 = Except.error e) ∧
    (api.getPageItem ctx.params.slug = Except.error e →
      (getStaticProps api ctx []).1 = Except.error e) ∧
    (∀ resp : PageResponse, api.getPageItem ctx.params.slug = Except.ok resp →
      api.getFooterItem = Except.error e →
      (getStaticProps api ctx []).1 = Except.error e) := by
  refine ⟨?_, ?_, ?_⟩
  · intro h
    simp [getStaticPaths, CmsM.run_bind, Api.fetchLinks, h]
  · intro h
    simp [getStaticProps, CmsM.run_bind, Api.fetchPageItem, h]
  · intro resp hp hf
    simp [getStaticProps, CmsM.run_bind, Api.fetchPageItem, Api.fetchFooterItem,
      hp, hf]

/-- A sample CMS error used to exercise the failure path. -/
def sampleErr : ApiError := { message := "fetch failed" }

/-- An API model on which every CMS fetch fails. -/
def failApi : Api :=
  { getLinks := Except.error sampleErr
    getPageItem := fun _ => Except.error sampleErr
    getFooterItem := Except.error sampleErr }

/-- A sample page item whose content carries the page discriminator. -/
def samplePage : PageItem :=
  { content := some { component := "page", title := "T", description := "D" } }

/-- A sample successful `getPageItem` response. -/
def samplePageResp : PageResponse := { data := { PageItem := some samplePage } }

/-- A sample footer item. -/
def sampleFooter : FooterItem := { columns := ["col"] }

/-- A sample successful `getFooterItem` response. -/
def sampleFooterResp : FooterResponse :=
  { data := { FooterItem := some sampleFooter } }

/-- A sample successful `getLinks` response: one page entry, one folder. -/
def sampleLinksResp : LinksResponse :=
  { data := some { Links := { items :=
      [ { id := 1, slug := "about", isFolder := false, name := "About" }
      , { id := 2, slug := "blog", isFolder := true, name := "Blog" } ] } } }

/-- An API model on which every CMS fetch succeeds. -/
def okApi : Api :=
  { getLinks := Except.ok sampleLinksResp
    getPageItem := fun _ => Except.ok samplePageResp
    getFooterItem := Except.ok sampleFooterResp }

/-- An API model on which only the footer fetch fails. -/
def footerFailApi : Api :=
  { getLinks := Except.ok sampleLinksResp
    getPageItem := fun _ => Except.ok samplePageResp
    getFooterItem := Except.error sampleErr }

/-- A sample `getStaticProps` context without a preview flag. -/
def sampleCtx : GetStaticPropsContext :=
  { params := { slug := "about" }, preview := none }

theorem staticFetch_error_propagation_witness :
    failApi.getLinks = Except.error sampleErr ∧
    (getStaticPaths failApi []).1 = Except.error sampleErr ∧
    (getStaticProps failApi sampleCtx []).1 = Except.error sampleErr ∧
    footerFailApi.getFooterItem = Except.error sampleErr ∧
    (getStaticProps footerFailApi sampleCtx []).1 = Except.error sampleErr := by
  refine ⟨rfl, ?_, ?_, rfl, ?_⟩
  · exact (staticFetch_error_propagation failApi sampleCtx sampleErr).1 rfl
  · exact (staticFetch_error_propagation failApi sampleCtx sampleErr).2.1 rfl
  · exact (staticFetch_error_propagation footerFailApi sampleCtx sampleErr).2.2
      samplePageResp rfl rfl

/-- C4: on success, `getStaticProps` is a pass-through: the returned props
hold exactly the `PageItem` of the `getPageItem({slug})` response, exactly the
`FooterItem` of the `getFooterItem()` response, and the preview flag, with no
transformation of the fetched records. -/
theorem getStaticProps_passthrough (api : Api) (ctx : GetStaticPropsContext)
    (pageResp : PageResponse) (footerResp : FooterResponse)
    (hp : api.getPageItem ctx.params.slug = Except.ok pageResp)
    (hf : api.getFooterItem = Except.ok footerResp) :
    (getStaticProps api ctx []).1 = Except.ok
      { props := { data := pageResp.data.PageItem
                   footer := footerResp.data.FooterItem
                   preview := ctx.preview.getD false } } := by
  simp [getStaticProps, CmsM.run_bind, CmsM.run_pure, Api.fetchPageItem,
    Api.fetchFooterItem, hp, hf]

theorem getStaticProps_passthrough_witness :
    (getStaticProps okApi sampleCtx []).1 = Except.ok
      { props := { data := some samplePage
                   footer := some sampleFooter
                   preview := false } } := by
  have h := getStaticProps_passthrough okApi sampleCtx samplePageResp
    sampleFooterResp rfl rfl
  exact h

/-- C5: for every input with the page data present, `Container` composes the
layout (carrying the footer), the SEO metadata (title and description taken
from `data.content`), and — under the page-type guard — the `Page` whose
render prop hands every raw blok of the `TRawBlok` union to the polymorphic
renderer `BlokProvider`. -/
theorem Container_composition (p : TContainerProps) (d : PageItem)
    (c : TPageContent) (hd : p.data = some d) (hc : d.content = some c) :
    Container p = Except.ok (RNode.layout p.footer
      ([RNode.seo c.title c.description DomainVariant.Labs] ++
        (if isPageType c.component then
          [RNode.page d p.preview (fun blok => RNode.blok (BlokProvider blok))]
        else []))) := by
  simp [Container, hd, hc]

/-- Sample container props with page data and footer present. -/
def sampleProps : TContainerProps :=
  { data := some samplePage, footer := some sampleFooter, preview := false }

theorem Container_composition_witness :
    Container sampleProps = Except.ok (RNode.layout (some sampleFooter)
      ([RNode.seo "T" "D" DomainVariant.Labs] ++
        [RNode.page samplePage false
          (fun blok => RNode.blok (BlokProvider blok))])) := by
  have h := Container_composition sampleProps samplePage
    { component := "page", title := "T", description := "D" } rfl rfl
  exact h

/-- C6: the path list returned by `getStaticPaths` is exactly
`getPaths(data?.Links.items)` on the `getLinks` response, and `getPaths`
itself is a direct mapping with a filter over the link entries, touching each
entry once. -/
theorem getStaticPaths_from_links (api : Api) (resp : LinksResponse)
    (h : api.getLinks = Except.ok resp) :
    (getStaticPaths api []).1 = Except.ok
      { paths := getPaths (resp.data.map (fun d => d.Links.items))
        fallback := false } ∧
    ∀ items : List TLinkEntry,
      getPaths (some items) =
        (items.filter (fun entry => !entry.isFolder)).map
          (fun entry => { params := { slug := entry.slug } }) := by
  constructor
  · simp [getStaticPaths, CmsM.run_bind, CmsM.run_pure, Api.fetchLinks, h]
  · intro items
    rfl

theorem getStaticPaths_from_links_witness :
    (getStaticPaths okApi []).1 = Except.ok
      { paths := [{ params := { slug := "about" } }], fallback := false } := by
  have h := (getStaticPaths_from_links okApi sampleLinksResp rfl).1
  simpa [sampleLinksResp, getPaths] using h

/-- C7: `getStaticProps` issues its CMS fetches single-shot and sequentially:
`getPageItem({slug})` is issued and resolved first, then — only if it
succeeded — `getFooterItem()` is issued; each call appears exactly once in
the trace and in that order. -/
theorem getStaticProps_sequential (api : Api) (ctx : GetStaticPropsContext) :
    (getStaticProps api ctx []).2 =
      match api.getPageItem ctx.params.slug with
      | Except.ok _ =>
          [ApiCall.getPageItem ctx.params.slug, ApiCall.getFooterItem]
      | Except.error _ => [ApiCall.getPageItem ctx.params.slug] := by
  cases h : api.getPageItem ctx.params.slug with
  | ok resp =>
    cases hf : api.getFooterItem with
    | ok footerResp =>
      simp [getStaticProps, CmsM.run_bind, CmsM.run_pure, Api.fetchPageItem,
        Api.fetchFooterItem, h, hf]
    | error e =>
      simp [getStaticProps, CmsM.run_bind, CmsM.run_pure, Api.fetchPageItem,
        Api.fetchFooterItem, h, hf]
  | error e =>
    simp [getStaticProps, CmsM.run_bind, Api.fetchPageItem, h]

/-- C8: `Container` reads `data.content.title` and `data.content.description`
unconditionally, so whenever `data` or `data.content` is absent it raises a
TypeError; the optional chaining in the `isPageType(data?.content?.component)`
guard does not protect those earlier reads. -/
theorem Container_requires_content (p : TContainerProps)
    (h : p.data = none ∨ ∃ d : PageItem, p.data = some d ∧ d.content = none) :
    ∃ msg : String, Container p = Except.error (JsError.typeError msg) := by
  rcases h with h | ⟨d, hd, hc⟩
  · exact ⟨"cannot read content of undefined", by simp [Container, h]⟩
  · exact ⟨"cannot read title of undefined", by simp [Container, hd, hc]⟩

theorem Container_requires_content_witness :
    ∃ msg : String,
      Container { data := none, footer := none, preview := false } =
        Except.error (JsError.typeError msg) :=
  Container_requires_content
    { data := none, footer := none, preview := false } (Or.inl rfl)

/-- C9: whatever the CMS returns, whenever `getStaticPaths` produces a
result its `fallback` field is `false`: only the produced slugs are
generated, never on demand. -/
theorem getStaticPaths_fallback_false (api : Api) (r : StaticPathsResult)
    (h : (getStaticPaths api []).1 = Except.ok r) :
    r.fallback = false := by
  cases hl : api.getLinks with
  | ok resp =>
    have := (getStaticPaths_from_links api resp hl).1
    rw [this] at h
    cases h
    rfl
  | error e =>
    have := (staticFetch_error_propagation api sampleCtx e).1 hl
    rw [this] at h
    cases h

theorem getStaticPaths_fallback_false_witness :
    ({ paths := [{ params := { slug := "about" } }], fallback := false }
        : StaticPathsResult).fallback = false :=
  getStaticPaths_fallback_false okApi _ rfl

/-- C10: when the context carries no preview flag, the returned props have
`preview = false`; when it carries one, that value is passed through
unchanged. -/
theorem getStaticProps_preview_default (api : Api)
    (ctx : GetStaticPropsContext) (res : StaticPropsResult)
    (h : (getStaticProps api ctx []).1 = Except.ok res) :
    (ctx.preview = none → res.props.preview = false) ∧
    (∀ b : Bool, ctx.preview = some b → res.props.preview = b) := by
  cases hp : api.getPageItem ctx.params.slug with
  | ok pageResp =>
    cases hf : api.getFooterItem with
    | ok footerResp =>
      have := getStaticProps_passthrough api ctx pageResp footerResp hp hf
      rw [this] at h
      cases h
      constructor
      · intro hnone
        simp [hnone]
      · intro b hsome
        simp [hsome]
    | error e =>
      have := (staticFetch_error_propagation api ctx e).2.2 pageResp hp hf
      rw [this] at h
      cases h
  | error e =>
    have := (staticFetch_error_propagation api ctx e).2.1 hp
    rw [this] at h
    cases h

theorem getStaticProps_preview_default_witness :
    sampleCtx.preview = none ∧
    ({ props := { data := some samplePage
                  footer := some sampleFooter
                  preview := false } } : StaticPropsResult).props.preview
      = false := by
  constructor
  · rfl
  · exact (getStaticProps_preview_default okApi sampleCtx _ rfl).1 rfl
